import Mathlib

/-!
Verification of the telemetry-to-action pipeline of the fleet-maintenance
backend: anomaly analyzer (`HealthMonitorAgent`), booking scheduler
(`PlannerAgent`) and workflow coordinator (`AgentCoordinator`).

Times are modelled as minutes since an epoch (`Int`), metric values and
scores as exact rationals (`Rat`).  Python dictionaries become association
lists, `None` becomes `Option`, and raised exceptions become `Except`.
-/

unseal Rat.add Rat.mul Rat.sub Rat.inv

namespace Fleet

/-! ## Anomaly analyzer (`backend/agents/health_monitor_agent.py`) -/

/-- The `anomaly_thresholds` dictionary of `HealthMonitorAgent.__init__`. -/
def anomaly_thresholds : List (String × Rat) :=
  [("battery_soh_critical", 70), ("battery_soh_warning", 80),
   ("battery_temp_critical", 45), ("battery_temp_warning", 40),
   ("voltage_imbalance_critical", 1/2), ("voltage_imbalance_warning", 3/10),
   ("motor_temp_critical", 85), ("motor_temp_warning", 75),
   ("coolant_temp_critical", 95), ("coolant_temp_warning", 85),
   ("coolant_level_critical", 20), ("coolant_level_warning", 30),
   ("motor_efficiency_critical", 75), ("motor_efficiency_warning", 80)]

/-- `self.anomaly_thresholds.get(key)`. -/
def thresholdLookup (key : String) : Option Rat :=
  anomaly_thresholds.lookup key

/-- Python truthiness of an optional float (`None` and `0.0` are falsy). -/
def truthy : Option Rat → Bool
  | none => false
  | some x => x != 0

/-- Python truthiness of an optional integer (`None` and `0` are falsy). -/
def natOptTruthy : Option Nat → Bool
  | none => false
  | some n => n != 0

/-- An anomaly dictionary as built by `_check_metric_anomaly`; the
`historical_context` key is added later by `_detect_anomalies`. -/
structure Anomaly where
  metric : String
  value : Rat
  threshold : Rat
  severity : String
  severity_score : Rat
  message : String
  historical_context : Option String := none
deriving DecidableEq

/-- The metrics treated as lower-is-worse by `_check_metric_anomaly`. -/
def lowerIsWorse (metric : String) : Bool :=
  metric == "battery_soh" || metric == "motor_efficiency" || metric == "coolant_level"

/-- `HealthMonitorAgent._check_metric_anomaly`. -/
def check_metric_anomaly (metric : String) (value : Rat) : Option Anomaly :=
  let critical_threshold := thresholdLookup (metric ++ "_critical")
  let warning_threshold := thresholdLookup (metric ++ "_warning")
  if !truthy critical_threshold && !truthy warning_threshold then
    none
  else if lowerIsWorse metric then
    if truthy critical_threshold && value < critical_threshold.getD 0 then
      some { metric, value, threshold := critical_threshold.getD 0,
             severity := "critical", severity_score := 1,
             message := metric ++ " is critically low: " ++ toString value }
    else if truthy warning_threshold && value < warning_threshold.getD 0 then
      some { metric, value, threshold := warning_threshold.getD 0,
             severity := "warning", severity_score := 6/10,
             message := metric ++ " is below normal: " ++ toString value }
    else none
  else
    if truthy critical_threshold && value > critical_threshold.getD 0 then
      some { metric, value, threshold := critical_threshold.getD 0,
             severity := "critical", severity_score := 1,
             message := metric ++ " is critically high: " ++ toString value }
    else if truthy warning_threshold && value > warning_threshold.getD 0 then
      some { metric, value, threshold := warning_threshold.getD 0,
             severity := "warning", severity_score := 6/10,
             message := metric ++ " is above normal: " ++ toString value }
    else none

/-- A telemetry reading: named metrics, each optionally absent. -/
abbrev Telemetry := List (String × Option Rat)

/-- The fixed placeholder dictionary of `_get_historical_anomalies`. -/
def historical_anomalies : List (String × String) :=
  [("battery_soh", "Similar issue detected 2 months ago"),
   ("battery_temp", "Temperature spikes observed during summer months"),
   ("motor_efficiency", "Gradual decline over past 6 months")]

/-- The per-anomaly `historical_context` assignment in `_detect_anomalies`. -/
def addContext (a : Anomaly) : Anomaly :=
  let ctx := (historical_anomalies.lookup a.metric).getD "No historical data"
  { a with historical_context := some ctx }

/-- `max(severity_scores) if severity_scores else 0.0`. -/
def maxOrZero : List Rat → Rat
  | [] => 0
  | h :: t => t.foldl max h

/-- The dictionary returned by `HealthMonitorAgent._detect_anomalies`. -/
structure DetectResult where
  vehicle_id : Option Nat
  anomalies_detected : Nat
  anomalies : List Anomaly
  overall_severity : Rat
  requires_immediate_attention : Bool
  confidence : Rat
  timestamp : Int
deriving DecidableEq

/-- `HealthMonitorAgent._detect_anomalies`; `now` stands for the
`datetime.utcnow()` read when building the result. -/
def detect_anomalies (telemetry : Telemetry) (vehicle_id : Option Nat) (now : Int) :
    DetectResult :=
  let anomalies0 := telemetry.filterMap (fun p => p.2.bind (check_metric_anomaly p.1))
  let severity_scores := anomalies0.map Anomaly.severity_score
  let anomalies := if natOptTruthy vehicle_id then anomalies0.map addContext else anomalies0
  let overall_severity := maxOrZero severity_scores
  { vehicle_id
    anomalies_detected := anomalies.length
    anomalies
    overall_severity
    requires_immediate_attention := decide (overall_severity ≥ 8/10)
    confidence := if anomalies.isEmpty then 7/10 else 9/10
    timestamp := now }

/-! ## Trend analysis (`_calculate_trend`, `_get_historical_telemetry`) -/

/-- Sum of a list of rationals. -/
def ratSum (l : List Rat) : Rat := l.foldl (· + ·) 0

/-- Least-squares slope of the degree-1 fit over `x = 0, 1, ...`, the value
computed by `np.polyfit(x, y, 1)[0]` in `_calculate_trend`. -/
def slopeOf (values : List Rat) : Rat :=
  let n : Rat := values.length
  let xs : List Rat := (List.range values.length).map (fun i => (i : Rat))
  let sx := ratSum xs
  let sy := ratSum values
  let sxy := ratSum ((values.enum).map (fun p => (p.1 : Rat) * p.2))
  let sxx := ratSum (xs.map (fun x => x * x))
  (n * sxy - sx * sy) / (n * sxx - sx * sx)

/-- Least-squares intercept of the same fit. -/
def interceptOf (values : List Rat) : Rat :=
  let n : Rat := values.length
  let xs : List Rat := (List.range values.length).map (fun i => (i : Rat))
  (ratSum values - slopeOf values * ratSum xs) / n

/-- Python `abs` on a rational. -/
def ratAbs (x : Rat) : Rat := if x < 0 then -x else x

/-- Python two-argument `min` (first argument on ties). -/
def minR (a b : Rat) : Rat := if b < a then b else a

/-- Python two-argument `max` (first argument on ties). -/
def maxR (a b : Rat) : Rat := if b > a then b else a

/-- The dictionary returned by `_calculate_trend`. -/
structure Trend where
  direction : String
  rate : Rat
  confidence : Rat
deriving DecidableEq

/-- `HealthMonitorAgent._calculate_trend` on the list of values it is given
(the caller supplies them in the retrieval order of the source). -/
def calculate_trend (values : List Rat) : Trend :=
  if values.length < 2 then { direction := "stable", rate := 0, confidence := 0 }
  else
    let slope := slopeOf values
    let direction :=
      if ratAbs slope < 1/10 then "stable"
      else if slope > 0 then "improving"
      else "declining"
    let intercept := interceptOf values
    let residuals := (values.enum).map (fun p => p.2 - (slope * (p.1 : Rat) + intercept))
    let ss_res := ratSum (residuals.map (fun r => r * r))
    let mean := ratSum values / (values.length : Rat)
    let ss_tot := ratSum (values.map (fun y => (y - mean) * (y - mean)))
    let r_squared := if ss_tot ≠ 0 then 1 - ss_res / ss_tot else 0
    { direction, rate := ratAbs slope, confidence := maxR 0 (minR 1 r_squared) }

/-- `_get_historical_telemetry` returns rows `ORDER BY timestamp DESC`, so a
chronologically ordered (oldest-first) metric history reaches
`_calculate_trend` reversed, newest first. -/
def historical_order (chronological : List Rat) : List Rat :=
  chronological.reverse

/-! ## Booking scheduler (`backend/agents/planner_agent.py`) -/

/-- One row of the `bookings` table (`database/models.py`), with
`booking_slot` in minutes since the epoch and `estimated_duration` in
minutes. -/
structure Booking where
  id : Nat
  vehicle_id : Nat
  workshop_id : String
  workshop_name : String
  booking_slot : Int
  service_type : String
  estimated_duration : Option Int
  priority : String
  status : String
  predicted_issue : String
  confidence_score : Rat
  recommended_actions : List String
deriving DecidableEq

/-- One row of the `workshops` table. -/
structure Workshop where
  workshop_id : String
  name : String
  location : String
  specialties : List String
  rating : Rat
deriving DecidableEq

/-- `booking.estimated_duration or 120`: Python `or` treats both `None` and
`0` as missing. -/
def durOr120 : Option Int → Int
  | none => 120
  | some d => if d = 0 then 120 else d

/-- The `booking_priorities` table of `PlannerAgent.__init__`:
`(urgency, max_delay_hours)` per priority. -/
def booking_priorities : List (String × Nat × Nat) :=
  [("critical", 1, 24), ("high", 2, 72), ("normal", 3, 168), ("low", 4, 336)]

/-- `self.booking_priorities.get(priority, self.booking_priorities["normal"])`,
projected to `max_delay_hours`. -/
def max_delay_hours (priority : String) : Nat :=
  ((booking_priorities.lookup priority).getD (3, 168)).2

/-- `PlannerAgent._estimate_service_duration` (minutes). -/
def estimate_service_duration (service_type : String) : Int :=
  let duration_mapping : List (String × Int) :=
    [("inspection", 60), ("preventive", 120), ("corrective", 180),
     ("emergency", 240), ("battery_service", 90), ("motor_service", 150),
     ("cooling_service", 120), ("general", 120)]
  (duration_mapping.lookup service_type).getD 120

/-- Rounding `utcnow()` up to the next full hour in
`_find_next_available_slot`. -/
def roundUpHour (now : Int) : Int :=
  if now % 60 > 0 then now - now % 60 + 60 else now

/-- `day.replace(hour=0, minute=0, second=0, microsecond=0)`: the midnight of
the day containing minute `t`. -/
def midnightOf (t : Int) : Int :=
  t - t % 1440

/-- The conflict test of `_find_next_available_slot`:
`slot_time < booking_end and slot_end > booking.booking_slot`. -/
def hasConflict (existing : List Booking) (slot_time slot_end : Int) : Bool :=
  existing.any (fun b =>
    slot_time < b.booking_slot + durOr120 b.estimated_duration &&
    slot_end > b.booking_slot)

/-- `PlannerAgent._find_next_available_slot`: scan 30 days of hourly slots in
the 08:00–18:00 window for the first slot with no conflict against the
workshop's future non-cancelled bookings. -/
def find_next_available_slot (store : List Booking) (workshop_id : String)
    (service_type : String) (now : Int) : Option Int :=
  let existing := store.filter (fun b =>
    b.workshop_id == workshop_id && b.booking_slot ≥ now &&
    (b.status == "scheduled" || b.status == "confirmed" || b.status == "in_progress"))
  let current_time := roundUpHour now
  let service_duration := estimate_service_duration service_type
  (List.range 30).findSome? (fun day_offset =>
    let day_start := midnightOf (current_time + 1440 * day_offset) + 8 * 60
    ((List.range 10).map (fun h => day_start + 60 * h)).find?
      (fun slot_time => !hasConflict existing slot_time (slot_time + service_duration)))

/-- The `best_slot` dictionary built by `_find_optimal_slot`. -/
structure OptimalSlot where
  workshop_id : String
  workshop_name : String
  location : String
  slot_time : Int
  estimated_duration : Int
deriving DecidableEq

/-- `(slot_time - datetime.utcnow()).total_seconds() / 3600` in hours. -/
def delayHours (now slot_time : Int) : Rat :=
  ((slot_time - now : Int) : Rat) / 60

/-- The `best_slot` record for a winning `(workshop, slot)` pair. -/
def mkOptimalSlot (service_type : String) (w : Workshop) (slot_time : Int) : OptimalSlot :=
  { workshop_id := w.workshop_id
    workshop_name := w.name
    location := w.location
    slot_time
    estimated_duration := estimate_service_duration service_type }

/-- Loop body accumulator pass of `_find_optimal_slot`: `best_slot` and
`best_score` (absent accumulator stands for `best_score = inf`). -/
def find_optimal_slot_go (store : List Booking) (max_delay : Rat)
    (service_type : String) (now : Int) :
    List Workshop → Option (OptimalSlot × Rat) → Option (OptimalSlot × Rat)
  | [], acc => acc
  | w :: ws, acc =>
    let acc' :=
      match find_next_available_slot store w.workshop_id service_type now with
      | none => acc
      | some slot_time =>
        let delay_hours := delayHours now slot_time
        if delay_hours > max_delay then acc
        else
          let score := delay_hours - w.rating * 10
          match acc with
          | none => some (mkOptimalSlot service_type w slot_time, score)
          | some (best, best_score) =>
            if score < best_score then some (mkOptimalSlot service_type w slot_time, score)
            else some (best, best_score)
    find_optimal_slot_go store max_delay service_type now ws acc'

/-- `PlannerAgent._find_optimal_slot`. -/
def find_optimal_slot (store : List Booking) (workshops : List Workshop)
    (priority : String) (service_type : String) (now : Int) : Option OptimalSlot :=
  let max_delay : Rat := (max_delay_hours priority : Nat)
  (find_optimal_slot_go store max_delay service_type now workshops none).map Prod.fst

/-- `PlannerAgent._find_suitable_workshops`: keep workshops whose specialties
contain the service type, `"all"` or `"general"`. -/
def find_suitable_workshops (workshops : List Workshop) (service_type : String) :
    List Workshop :=
  workshops.filter (fun w =>
    w.specialties.contains service_type || w.specialties.contains "all" ||
    w.specialties.contains "general")

/-- `PlannerAgent._schedule_booking` at the booking-store level: filter
suitable workshops, pick the optimal slot, and append the new `Booking` row;
on failure the store is unchanged and the error message of the returned
dictionary is reported. -/
def schedule_booking (store : List Booking) (all_workshops : List Workshop)
    (new_id vehicle_id : Nat) (service_type priority predicted_issue : String)
    (confidence_score : Rat) (recommended_actions : List String) (now : Int) :
    List Booking × Option String :=
  let workshops := find_suitable_workshops all_workshops service_type
  if workshops.isEmpty then (store, some "No available workshops found")
  else
    match find_optimal_slot store workshops priority service_type now with
    | none => (store, some "No available slots found")
    | some s =>
      let booking : Booking :=
        { id := new_id
          vehicle_id
          workshop_id := s.workshop_id
          workshop_name := s.workshop_name
          booking_slot := s.slot_time
          service_type
          estimated_duration := some s.estimated_duration
          priority
          status := "scheduled"
          predicted_issue
          confidence_score
          recommended_actions }
      (store ++ [booking], none)

/-- The `updates` dictionary accepted by `_update_booking`, restricted to the
`allowed_updates` fields. -/
structure BookingUpdates where
  booking_slot : Option Int := none
  service_type : Option String := none
  priority : Option String := none
  status : Option String := none
  estimated_duration : Option Int := none
  predicted_issue : Option String := none
  confidence_score : Option Rat := none
deriving DecidableEq

/-- The `setattr` loop of `_update_booking` applied to one booking. -/
def applyUpdates (b : Booking) (u : BookingUpdates) : Booking :=
  { b with
    booking_slot := u.booking_slot.getD b.booking_slot
    service_type := u.service_type.getD b.service_type
    priority := u.priority.getD b.priority
    status := u.status.getD b.status
    estimated_duration := match u.estimated_duration with
      | some d => some d
      | none => b.estimated_duration
    predicted_issue := u.predicted_issue.getD b.predicted_issue
    confidence_score := u.confidence_score.getD b.confidence_score }

/-- `PlannerAgent._update_booking`: fetch by id and write the updated fields
back, with no conflict check. -/
def update_booking (store : List Booking) (booking_id : Nat) (u : BookingUpdates) :
    List Booking × Option String :=
  if store.any (fun b => b.id == booking_id) then
    (store.map (fun b => if b.id == booking_id then applyUpdates b u else b), none)
  else (store, some "Booking not found")

/-- `PlannerAgent._cancel_booking`: refuse for completed or cancelled
bookings, otherwise set the status to `"cancelled"`. -/
def cancel_booking (store : List Booking) (booking_id : Nat) :
    List Booking × Option String :=
  match store.find? (fun b => b.id == booking_id) with
  | none => (store, some "Booking not found")
  | some b =>
    if b.status == "completed" || b.status == "cancelled" then
      (store, some ("Cannot cancel booking with status: " ++ b.status))
    else
      (store.map (fun x => if x.id == booking_id then { x with status := "cancelled" } else x),
       none)

/-- Disjointness of the half-open intervals of two bookings. -/
def disjointB (a b : Booking) : Bool :=
  a.booking_slot + durOr120 a.estimated_duration ≤ b.booking_slot ||
  b.booking_slot + durOr120 b.estimated_duration ≤ a.booking_slot

/-- Boolean pairwise check over a list. -/
def pairwiseB (r : α → α → Bool) : List α → Bool
  | [] => true
  | a :: l => l.all (r a) && pairwiseB r l

/-- The calendar non-overlap invariant: every pair of distinct bookings on the
same workshop, neither cancelled, occupies disjoint
`[booking_slot, booking_slot + estimated_duration)` intervals. -/
def overlapFree (store : List Booking) : Bool :=
  pairwiseB (fun a b =>
    !(a.workshop_id == b.workshop_id) || a.status == "cancelled" ||
    b.status == "cancelled" || disjointB a b) store

/-! ## Workflow coordinator (`backend/agents/agent_coordinator.py`)

Collaborator stages (logger, planner, communicator) run through
`BaseAgent.execute_with_logging`, which re-raises any exception of the
wrapped call; a call is therefore modelled as an `Except String` value
supplied by the environment.  The single `try` of
`process_vehicle_telemetry` catches every such exception at the end. -/

/-- Result dictionary of a successful `log_telemetry` call. -/
structure LogResult where
  telemetry_id : Nat
deriving DecidableEq

/-- Result dictionary of a successful communicator call. -/
structure CommResult where
  payload : List (String × String)
deriving DecidableEq

/-- The dictionary returned by `PlannerAgent._schedule_booking` as seen by
the coordinator: a `booking_id` on success, an `error` message otherwise. -/
structure BookingResult where
  booking_id : Option Nat := none
  error : Option String := none
  workshop_id : Option String := none
  booking_slot : Option Int := none
  priority : Option String := none
  status : Option String := none
deriving DecidableEq

/-- The input dictionary the coordinator passes to
`planner.execute_with_logging("schedule_booking", ...)`. -/
structure BookingInput where
  vehicle_id : Nat
  service_type : String
  priority : String
  predicted_issue : String
  confidence_score : Rat
  recommended_actions : List String
deriving DecidableEq

/-- The input dictionary the coordinator passes to
`communicator.execute_with_logging("send_alert", ...)`. -/
structure AlertInput where
  vehicle_id : Nat
  alert_type : String
  severity : String
  anomalies : List Anomaly
  overall_severity : Rat
  telemetry_snapshot : Telemetry
deriving DecidableEq

/-- Outcomes of the collaborator calls made by `process_vehicle_telemetry`;
`Except.error` stands for a raised (and re-raised) exception.
`health_logging` is the `execute_with_logging` wrapper around the anomaly
detection stage, whose own computation is the pure `detect_anomalies`. -/
structure PipelineEnv where
  log_telemetry : Nat → Telemetry → Except String LogResult
  health_logging : Except String Unit
  schedule_booking : BookingInput → Except String BookingResult
  send_booking_confirmation : Nat → Except String CommResult
  send_alert : AlertInput → Except String CommResult

/-- A value of the per-stage `workflow_results` dictionary. -/
inductive StepResult where
  | logR (r : LogResult)
  | healthR (r : DetectResult)
  | bookingR (r : BookingResult)
  | commR (r : CommResult)
deriving DecidableEq

/-- The dictionary returned by `process_vehicle_telemetry`; the
`aborted_results` field models the `partial_results` key of the error
return. -/
structure PipelineOutcome where
  vehicle_id : Nat
  workflow_completed : Bool
  steps_executed : Option (List String)
  results : Option (List (String × StepResult))
  error : Option String
  aborted_results : Option (List (String × StepResult))
  timestamp : Int
deriving DecidableEq

/-- The `except Exception` return of `process_vehicle_telemetry`. -/
def failOutcome (vid : Nat) (e : String) (wr : List (String × StepResult))
    (now : Int) : PipelineOutcome :=
  { vehicle_id := vid
    workflow_completed := false
    steps_executed := none
    results := none
    error := some e
    aborted_results := some wr
    timestamp := now }

/-- The normal return of `process_vehicle_telemetry`. -/
def okOutcome (vid : Nat) (wr : List (String × StepResult)) (now : Int) :
    PipelineOutcome :=
  { vehicle_id := vid
    workflow_completed := true
    steps_executed := some (wr.map Prod.fst)
    results := some wr
    error := none
    aborted_results := none
    timestamp := now }

/-- The priority derivation of step 3 of `process_vehicle_telemetry`. -/
def derive_priority (severity : Rat) : String :=
  if severity ≥ 8/10 then "critical"
  else if severity ≥ 6/10 then "high"
  else "normal"

/-- The `schedule_booking` input built by the coordinator. -/
def mkBookingInput (vid : Nat) (hr : DetectResult) : BookingInput :=
  { vehicle_id := vid
    service_type := "corrective"
    priority := derive_priority hr.overall_severity
    predicted_issue := ((hr.anomalies.head?).map Anomaly.message).getD ""
    confidence_score := hr.confidence
    recommended_actions := ["Immediate inspection required"] }

/-- The `send_alert` input built by the coordinator. -/
def mkAlertInput (vid : Nat) (telemetry : Telemetry) (hr : DetectResult) :
    AlertInput :=
  { vehicle_id := vid
    alert_type := "anomaly_detected"
    severity := if hr.overall_severity ≥ 8/10 then "critical" else "warning"
    anomalies := hr.anomalies
    overall_severity := hr.overall_severity
    telemetry_snapshot := telemetry }

/-- `AgentCoordinator.process_vehicle_telemetry`: logging, anomaly detection,
then — when anomalies were detected and severity is at least 0.6 — booking,
booking confirmation and alert, all inside one `try` whose handler returns
the failure outcome with the results collected so far. -/
def process_vehicle_telemetry (env : PipelineEnv) (vid : Nat)
    (telemetry : Telemetry) (now : Int) : PipelineOutcome :=
  match env.log_telemetry vid telemetry with
  | .error e => failOutcome vid e [] now
  | .ok lr =>
    let wr1 := [("logging", StepResult.logR lr)]
    match env.health_logging with
    | .error e => failOutcome vid e wr1 now
    | .ok _ =>
      let hr := detect_anomalies telemetry (some vid) now
      let wr2 := wr1 ++ [("health_monitoring", StepResult.healthR hr)]
      if hr.anomalies_detected > 0 then
        if hr.overall_severity ≥ 6/10 then
          match env.schedule_booking (mkBookingInput vid hr) with
          | .error e => failOutcome vid e wr2 now
          | .ok br =>
            let wr3 := wr2 ++ [("booking", StepResult.bookingR br)]
            let afterConfirmation : Except PipelineOutcome (List (String × StepResult)) :=
              if br.booking_id.getD 0 ≠ 0 then
                match env.send_booking_confirmation (br.booking_id.getD 0) with
                | .error e => .error (failOutcome vid e wr3 now)
                | .ok cr => .ok (wr3 ++ [("booking_communication", StepResult.commR cr)])
              else .ok wr3
            match afterConfirmation with
            | .error out => out
            | .ok wr4 =>
              match env.send_alert (mkAlertInput vid telemetry hr) with
              | .error e => failOutcome vid e wr4 now
              | .ok ar =>
                okOutcome vid (wr4 ++ [("alert_communication", StepResult.commR ar)]) now
        else okOutcome vid wr2 now
      else okOutcome vid wr2 now

/-- The stage keys recorded anywhere in a pipeline outcome. -/
def recordedSteps (out : PipelineOutcome) : List String :=
  (match out.results with
   | some l => l.map Prod.fst
   | none => []) ++
  (match out.aborted_results with
   | some l => l.map Prod.fst
   | none => [])

/-! ## Derived views used in statements -/

/-- Severity tier and score of an anomaly. -/
def severityStat (a : Anomaly) : String × Rat :=
  (a.severity, a.severity_score)

/-- Everything `_detect_anomalies` returns apart from its `timestamp` key. -/
def analysisContent (r : DetectResult) :
    Option Nat × Nat × List Anomaly × Rat × Bool × Rat :=
  (r.vehicle_id, r.anomalies_detected, r.anomalies, r.overall_severity,
   r.requires_immediate_attention, r.confidence)

/-- The feasible `(workshop, slot)` pair a workshop contributes to
`_find_optimal_slot`: its earliest available slot, kept only when the delay
is within the priority bound. -/
def slotCandidate (store : List Booking) (max_delay : Rat) (service_type : String)
    (now : Int) (w : Workshop) : Option (Workshop × Int) :=
  match find_next_available_slot store w.workshop_id service_type now with
  | none => none
  | some slot_time =>
    if delayHours now slot_time > max_delay then none else some (w, slot_time)

/-- The score `delay_hours - workshop.rating * 10` of a candidate pair. -/
def candScore (now : Int) (c : Workshop × Int) : Rat :=
  delayHours now c.2 - c.1.rating * 10

/-- The selection loop of `_find_optimal_slot` replayed over the candidate
pairs only. -/
def pickBest (now : Int) (service_type : String) :
    List (Workshop × Int) → Option (OptimalSlot × Rat) → Option (OptimalSlot × Rat)
  | [], acc => acc
  | c :: cs, acc =>
    let score := candScore now c
    let acc' :=
      match acc with
      | none => some (mkOptimalSlot service_type c.1 c.2, score)
      | some (best, best_score) =>
        if score < best_score then some (mkOptimalSlot service_type c.1 c.2, score)
        else some (best, best_score)
    pickBest now service_type cs acc'

/-! ## Concrete fixtures for witnesses and counterexamples -/

/-- A workshop with id `"w2"` and rating 4. -/
def wsA : Workshop :=
  { workshop_id := "w2", name := "Alpha Garage", location := "north",
    specialties := ["corrective"], rating := 4 }

/-- A workshop with id `"w1"`, same rating and specialties as `wsA`. -/
def wsB : Workshop :=
  { workshop_id := "w1", name := "Beta Garage", location := "south",
    specialties := ["corrective"], rating := 4 }

/-- A scheduled one-hour booking at minute 0 on workshop `"w1"`. -/
def bk1 : Booking :=
  { id := 1, vehicle_id := 1, workshop_id := "w1", workshop_name := "Alpha Garage",
    booking_slot := 0, service_type := "corrective", estimated_duration := some 60,
    priority := "high", status := "scheduled", predicted_issue := "",
    confidence_score := 1, recommended_actions := [] }

/-- A scheduled one-hour booking at minute 120 on workshop `"w1"`. -/
def bk2 : Booking :=
  { bk1 with id := 2, booking_slot := 120 }

/-- An environment in which logging, analysis and scheduling succeed but
every communicator (notifier) call raises. -/
def envNotifierDown : PipelineEnv :=
  { log_telemetry := fun _ _ => .ok ⟨1⟩
    health_logging := .ok ()
    schedule_booking := fun _ => .ok { booking_id := some 7 }
    send_booking_confirmation := fun _ => .error "notifier unavailable"
    send_alert := fun _ => .error "notifier unavailable" }

/-- An environment in which every collaborator call succeeds. -/
def envAllOk : PipelineEnv :=
  { log_telemetry := fun _ _ => .ok ⟨1⟩
    health_logging := .ok ()
    schedule_booking := fun _ => .ok { booking_id := some 7 }
    send_booking_confirmation := fun _ => .ok ⟨[]⟩
    send_alert := fun _ => .ok ⟨[]⟩ }

/-- A telemetry reading whose battery state of health is critically low. -/
def telemCritical : Telemetry := [("battery_soh", some 65)]

/-! ## Analyzer lemmas -/

theorem check_lower_shape (m : String) (v c w : Rat)
    (hm : lowerIsWorse m = true)
    (hc : thresholdLookup (m ++ "_critical") = some c) (hc0 : c ≠ 0)
    (hw : thresholdLookup (m ++ "_warning") = some w) (hw0 : w ≠ 0) :
    check_metric_anomaly m v =
      if v < c then
        some { metric := m, value := v, threshold := c, severity := "critical",
               severity_score := 1, message := m ++ " is critically low: " ++ toString v }
      else if v < w then
        some { metric := m, value := v, threshold := w, severity := "warning",
               severity_score := 6/10, message := m ++ " is below normal: " ++ toString v }
      else none := by
  simp only [check_metric_anomaly, hc, hw, hm, truthy, Option.getD_some]
  simp [hc0, hw0]

theorem check_higher_shape (m : String) (v c w : Rat)
    (hm : lowerIsWorse m = false)
    (hc : thresholdLookup (m ++ "_critical") = some c) (hc0 : c ≠ 0)
    (hw : thresholdLookup (m ++ "_warning") = some w) (hw0 : w ≠ 0) :
    check_metric_anomaly m v =
      if v > c then
        some { metric := m, value := v, threshold := c, severity := "critical",
               severity_score := 1, message := m ++ " is critically high: " ++ toString v }
      else if v > w then
        some { metric := m, value := v, threshold := w, severity := "warning",
               severity_score := 6/10, message := m ++ " is above normal: " ++ toString v }
      else none := by
  simp only [check_metric_anomaly, hc, hw, hm, truthy, Option.getD_some]
  simp [hc0, hw0]

/-- C4: for a metric with configured, nonzero thresholds,
`_check_metric_anomaly` classifies by the metric's direction: on a
lower-is-worse metric, `value < critical` yields a critical anomaly with
score 1.0, `critical ≤ value < warning` a warning anomaly with score 0.6,
and a value on the safe side of the warning threshold yields no anomaly;
symmetrically, with the comparisons reversed, for higher-is-worse
metrics. -/
theorem check_metric_anomaly_direction (m : String) (v c w : Rat)
    (hc : thresholdLookup (m ++ "_critical") = some c) (hc0 : c ≠ 0)
    (hw : thresholdLookup (m ++ "_warning") = some w) (hw0 : w ≠ 0) :
    (lowerIsWorse m = true → c < w →
      ((v < c → (check_metric_anomaly m v).map severityStat = some ("critical", 1)) ∧
       (c ≤ v → v < w →
         (check_metric_anomaly m v).map severityStat = some ("warning", 6/10)) ∧
       (w ≤ v → check_metric_anomaly m v = none))) ∧
    (lowerIsWorse m = false → w < c →
      ((c < v → (check_metric_anomaly m v).map severityStat = some ("critical", 1)) ∧
       (v ≤ c → w < v →
         (check_metric_anomaly m v).map severityStat = some ("warning", 6/10)) ∧
       (v ≤ w → check_metric_anomaly m v = none))) := by
  constructor
  · intro hm hcw
    rw [check_lower_shape m v c w hm hc hc0 hw hw0]
    refine ⟨fun h1 => ?_, fun h1 h2 => ?_, fun h1 => ?_⟩
    · rw [if_pos h1]; rfl
    · rw [if_neg (by exact not_lt.mpr h1), if_pos h2]; rfl
    · rw [if_neg (by exact not_lt.mpr (le_trans (le_of_lt hcw) h1)),
        if_neg (by exact not_lt.mpr h1)]
  · intro hm hwc
    rw [check_higher_shape m v c w hm hc hc0 hw hw0]
    refine ⟨fun h1 => ?_, fun h1 h2 => ?_, fun h1 => ?_⟩
    · rw [if_pos h1]; rfl
    · rw [if_neg (by exact not_lt.mpr h1), if_pos h2]; rfl
    · rw [if_neg (by exact not_lt.mpr (le_trans h1 (le_of_lt hwc))),
        if_neg (by exact not_lt.mpr h1)]

/-- C4 witness: the battery state-of-health (lower-is-worse) and battery
temperature (higher-is-worse) defaults, evaluated at concrete readings. -/
theorem check_metric_anomaly_direction_witness :
    (check_metric_anomaly "battery_soh" 65).map severityStat = some ("critical", 1) ∧
    (check_metric_anomaly "battery_soh" 75).map severityStat = some ("warning", 6/10) ∧
    check_metric_anomaly "battery_soh" 85 = none ∧
    (check_metric_anomaly "battery_temp" 47).map severityStat = some ("critical", 1) ∧
    (check_metric_anomaly "battery_temp" 42).map severityStat = some ("warning", 6/10) ∧
    check_metric_anomaly "battery_temp" 39 = none := by
  have hsoh := check_metric_anomaly_direction "battery_soh" 65 70 80
    (by decide) (by decide) (by decide) (by decide)
  have hsoh2 := check_metric_anomaly_direction "battery_soh" 75 70 80
    (by decide) (by decide) (by decide) (by decide)
  have hsoh3 := check_metric_anomaly_direction "battery_soh" 85 70 80
    (by decide) (by decide) (by decide) (by decide)
  have htmp := check_metric_anomaly_direction "battery_temp" 47 45 40
    (by decide) (by decide) (by decide) (by decide)
  have htmp2 := check_metric_anomaly_direction "battery_temp" 42 45 40
    (by decide) (by decide) (by decide) (by decide)
  have htmp3 := check_metric_anomaly_direction "battery_temp" 39 45 40
    (by decide) (by decide) (by decide) (by decide)
  exact ⟨(hsoh.1 (by decide) (by decide)).1 (by decide),
    (hsoh2.1 (by decide) (by decide)).2.1 (by decide) (by decide),
    (hsoh3.1 (by decide) (by decide)).2.2 (by decide),
    (htmp.2 (by decide) (by decide)).1 (by decide),
    (htmp2.2 (by decide) (by decide)).2.1 (by decide) (by decide),
    (htmp3.2 (by decide) (by decide)).2.2 (by decide)⟩

theorem foldl_max_mem (h : Rat) (t : List Rat) : t.foldl max h ∈ h :: t := by
  induction t generalizing h with
  | nil => simp
  | cons x t ih =>
    rw [List.foldl_cons]
    rcases List.mem_cons.mp (ih (max h x)) with h1 | h1
    · rcases max_choice h x with h2 | h2 <;> rw [h1, h2] <;> simp
    · simp only [List.mem_cons]
      exact Or.inr (Or.inr h1)

theorem le_foldl_max (h : Rat) (t : List Rat) : ∀ x ∈ h :: t, x ≤ t.foldl max h := by
  induction t generalizing h with
  | nil => intro x hx; rw [List.mem_singleton] at hx; simp [hx]
  | cons y t ih =>
    intro x hx
    rw [List.foldl_cons]
    rcases List.mem_cons.mp hx with rfl | hx'
    · exact le_trans (le_max_left x y) (ih (max x y) _ (List.mem_cons_self _ _))
    · rcases List.mem_cons.mp hx' with rfl | hx''
      · exact le_trans (le_max_right h x) (ih (max h x) _ (List.mem_cons_self _ _))
      · exact ih (max h y) x (List.mem_cons_of_mem _ hx'')

theorem maxOrZero_mem (l : List Rat) (h : l ≠ []) : maxOrZero l ∈ l := by
  cases l with
  | nil => exact absurd rfl h
  | cons x t => exact foldl_max_mem x t

theorem le_maxOrZero (l : List Rat) : ∀ x ∈ l, x ≤ maxOrZero l := by
  cases l with
  | nil => intro x hx; exact absurd hx (List.not_mem_nil x)
  | cons x t => exact le_foldl_max x t

theorem addContext_severity_score (a : Anomaly) :
    (addContext a).severity_score = a.severity_score := rfl

theorem detect_anomalies_scores (telemetry : Telemetry) (vid : Option Nat) (now : Int) :
    (detect_anomalies telemetry vid now).overall_severity =
      maxOrZero ((detect_anomalies telemetry vid now).anomalies.map Anomaly.severity_score) := by
  cases hvid : natOptTruthy vid <;>
    simp [detect_anomalies, hvid, List.map_map, Function.comp_def, addContext_severity_score]

theorem detect_anomalies_requires (telemetry : Telemetry) (vid : Option Nat) (now : Int) :
    (detect_anomalies telemetry vid now).requires_immediate_attention =
      decide ((detect_anomalies telemetry vid now).overall_severity ≥ 8/10) := rfl

/-- C5: the overall severity of `_detect_anomalies` is the maximum severity
score of the produced anomalies (0.0 when none), and
`requires_immediate_attention` holds exactly when it is at least 0.8; on the
reading `battery_soh = 65, battery_temp = 47` under the default thresholds,
exactly two critical anomalies are produced with overall severity 1.0. -/
theorem detect_anomalies_severity_aggregation (telemetry : Telemetry)
    (vid : Option Nat) (now : Int) :
    ((detect_anomalies telemetry vid now).anomalies = [] →
      (detect_anomalies telemetry vid now).overall_severity = 0) ∧
    ((detect_anomalies telemetry vid now).anomalies ≠ [] →
      (detect_anomalies telemetry vid now).overall_severity ∈
        (detect_anomalies telemetry vid now).anomalies.map Anomaly.severity_score) ∧
    (∀ a ∈ (detect_anomalies telemetry vid now).anomalies,
      a.severity_score ≤ (detect_anomalies telemetry vid now).overall_severity) ∧
    ((detect_anomalies telemetry vid now).requires_immediate_attention = true ↔
      (detect_anomalies telemetry vid now).overall_severity ≥ 8/10) ∧
    (detect_anomalies [("battery_soh", some 65), ("battery_temp", some 47)]
        (some 1) 0).anomalies_detected = 2 ∧
    (detect_anomalies [("battery_soh", some 65), ("battery_temp", some 47)]
        (some 1) 0).anomalies.map severityStat = [("critical", 1), ("critical", 1)] ∧
    (detect_anomalies [("battery_soh", some 65), ("battery_temp", some 47)]
        (some 1) 0).overall_severity = 1 := by
  refine ⟨?_, ?_, ?_, ?_, by decide, by decide, by decide⟩
  · intro hnil
    rw [detect_anomalies_scores, hnil]
    rfl
  · intro hne
    rw [detect_anomalies_scores]
    exact maxOrZero_mem _ (by simpa using hne)
  · intro a ha
    rw [detect_anomalies_scores]
    exact le_maxOrZero _ _ (List.mem_map_of_mem _ ha)
  · rw [detect_anomalies_requires]
    exact decide_eq_true_iff

/-- C5 witness: the aggregation facts instantiated at the scenario reading
and at an empty reading. -/
theorem detect_anomalies_severity_aggregation_witness :
    (detect_anomalies [("battery_soh", some 65), ("battery_temp", some 47)]
        (some 1) 0).overall_severity ∈
      (detect_anomalies [("battery_soh", some 65), ("battery_temp", some 47)]
          (some 1) 0).anomalies.map Anomaly.severity_score ∧
    (detect_anomalies [] none 0).overall_severity = 0 :=
  ⟨(detect_anomalies_severity_aggregation
      [("battery_soh", some 65), ("battery_temp", some 47)] (some 1) 0).2.1 (by decide),
   (detect_anomalies_severity_aggregation [] none 0).1 (by decide)⟩

/-- C9 counterexample: `_detect_anomalies` embeds `datetime.utcnow()` in its
`timestamp` key, so two invocations with identical telemetry and vehicle id
at different wall-clock instants return different dictionaries. -/
theorem detect_anomalies_wall_clock_cex :
    detect_anomalies telemCritical (some 1) 0 ≠
      detect_anomalies telemCritical (some 1) 1 := by decide

/-- C9 (amended): apart from the `timestamp` key, the output of
`_detect_anomalies` is a deterministic function of the telemetry dictionary
and the vehicle id alone — no randomness and no wall-clock dependence. -/
theorem detect_anomalies_deterministic_content (telemetry : Telemetry)
    (vid : Option Nat) (n1 n2 : Int) :
    analysisContent (detect_anomalies telemetry vid n1) =
      analysisContent (detect_anomalies telemetry vid n2) := rfl

/-- C10: a metric with neither threshold configured never yields an anomaly,
and appending such a metric to a telemetry reading leaves the whole
detection result unchanged. -/
theorem unconfigured_metric_silently_safe (m : String) (v : Rat)
    (hc : thresholdLookup (m ++ "_critical") = none)
    (hw : thresholdLookup (m ++ "_warning") = none) :
    check_metric_anomaly m v = none ∧
    ∀ telemetry vid now,
      detect_anomalies (telemetry ++ [(m, some v)]) vid now =
        detect_anomalies telemetry vid now := by
  have h1 : check_metric_anomaly m v = none := by
    simp [check_metric_anomaly, hc, hw, truthy]
  refine ⟨h1, fun telemetry vid now => ?_⟩
  simp [detect_anomalies, List.filterMap_append, h1]

/-- C10 witness: `battery_soc` and `speed` have no configured thresholds. -/
theorem unconfigured_metric_silently_safe_witness :
    check_metric_anomaly "battery_soc" 50 = none ∧
    detect_anomalies (telemCritical ++ [("speed", some 130)]) (some 1) 0 =
      detect_anomalies telemCritical (some 1) 0 :=
  ⟨(unconfigured_metric_silently_safe "battery_soc" 50 (by decide) (by decide)).1,
   (unconfigured_metric_silently_safe "speed" 130 (by decide) (by decide)).2
     telemCritical (some 1) 0⟩

/-! ## Trend direction (C8) -/

/-- C8: the trend pipeline inverts the sign convention.  `battery_soh` is
lower-is-worse; the chronological history `70, 75, 80` is strictly
increasing (slope 5 per step, improving), yet — because
`_get_historical_telemetry` hands the values to `_calculate_trend` newest
first — the computed direction is `"declining"`, and symmetrically the
strictly decreasing history `80, 75, 70` is reported `"improving"`. -/
theorem calculate_trend_direction_inverted :
    slopeOf [70, 75, 80] = 5 ∧
    (calculate_trend (historical_order [70, 75, 80])).direction = "declining" ∧
    slopeOf [80, 75, 70] = -5 ∧
    (calculate_trend (historical_order [80, 75, 70])).direction = "improving" := by
  decide

/-! ## Scheduler lemmas -/

theorem slotCandidate_some (store : List Booking) (md : Rat) (st : String)
    (now : Int) (w : Workshop) (c : Workshop × Int)
    (h : slotCandidate store md st now w = some c) :
    c.1 = w ∧ find_next_available_slot store w.workshop_id st now = some c.2 ∧
      ¬ delayHours now c.2 > md := by
  unfold slotCandidate at h
  split at h
  · exact absurd h (by simp)
  · rename_i t hs
    split at h
    · exact absurd h (by simp)
    · rename_i hd
      rw [Option.some_inj] at h
      subst h
      exact ⟨rfl, hs, hd⟩

theorem go_eq_pickBest (store : List Booking) (max_delay : Rat) (st : String)
    (now : Int) (ws : List Workshop) (acc : Option (OptimalSlot × Rat)) :
    find_optimal_slot_go store max_delay st now ws acc =
      pickBest now st (ws.filterMap (slotCandidate store max_delay st now)) acc := by
  induction ws generalizing acc with
  | nil => rfl
  | cons w ws ih =>
    rw [List.filterMap_cons, find_optimal_slot_go]
    cases hs : find_next_available_slot store w.workshop_id st now with
    | none =>
      rw [show slotCandidate store max_delay st now w = none from by
        simp [slotCandidate, hs]]
      simp only [hs]
      exact ih acc
    | some t =>
      by_cases hd : delayHours now t > max_delay
      · rw [show slotCandidate store max_delay st now w = none from by
          simp [slotCandidate, hs, hd]]
        simp only [hs, if_pos hd]
        exact ih acc
      · rw [show slotCandidate store max_delay st now w = some (w, t) from by
          simp [slotCandidate, hs, hd]]
        simp only [hs, if_neg hd, pickBest]
        exact ih _

theorem pickBest_spec (now : Int) (st : String) (cs : List (Workshop × Int))
    (acc : Option (OptimalSlot × Rat)) (r : OptimalSlot × Rat)
    (h : pickBest now st cs acc = some r) :
    (acc = some r ∧ ∀ c ∈ cs, ¬ candScore now c < r.2) ∨
    (∃ pre c post, cs = pre ++ c :: post ∧
      r.1 = mkOptimalSlot st c.1 c.2 ∧ r.2 = candScore now c ∧
      (∀ d, acc = some d → r.2 < d.2) ∧
      (∀ d ∈ pre, r.2 < candScore now d) ∧
      (∀ d ∈ post, ¬ candScore now d < r.2)) := by
  induction cs generalizing acc with
  | nil => exact Or.inl ⟨h, by simp⟩
  | cons c cs ih =>
    simp only [pickBest] at h
    cases acc with
    | none =>
      rcases ih _ h with ⟨heq, hall⟩ | ⟨pre, c', post, hdec, h1, h2, hacc, hpre, hpost⟩
      · rw [Option.some_inj] at heq
        subst heq
        exact Or.inr ⟨[], c, cs, rfl, rfl, rfl, by simp, by simp, hall⟩
      · refine Or.inr ⟨c :: pre, c', post, by rw [hdec]; rfl, h1, h2, by simp, ?_, hpost⟩
        intro d hd
        rcases List.mem_cons.mp hd with rfl | hd'
        · exact hacc _ rfl
        · exact hpre _ hd'
    | some b =>
      obtain ⟨best, best_score⟩ := b
      dsimp only at h
      by_cases hcb : candScore now c < best_score
      · rw [if_pos hcb] at h
        rcases ih _ h with ⟨heq, hall⟩ | ⟨pre, c', post, hdec, h1, h2, hacc, hpre, hpost⟩
        · rw [Option.some_inj] at heq
          subst heq
          refine Or.inr ⟨[], c, cs, rfl, rfl, rfl, ?_, by simp, hall⟩
          intro d hd
          rw [Option.some_inj] at hd
          subst hd
          exact hcb
        · have hrc : r.2 < candScore now c := hacc _ rfl
          refine Or.inr ⟨c :: pre, c', post, by rw [hdec]; rfl, h1, h2, ?_, ?_, hpost⟩
          · intro d hd
            rw [Option.some_inj] at hd
            subst hd
            exact lt_trans hrc hcb
          · intro d hd
            rcases List.mem_cons.mp hd with rfl | hd'
            · exact hrc
            · exact hpre _ hd'
      · rw [if_neg hcb] at h
        rcases ih _ h with ⟨heq, hall⟩ | ⟨pre, c', post, hdec, h1, h2, hacc, hpre, hpost⟩
        · rw [Option.some_inj] at heq
          subst heq
          refine Or.inl ⟨rfl, ?_⟩
          intro d hd
          rcases List.mem_cons.mp hd with rfl | hd'
          · exact hcb
          · exact hall _ hd'
        · have hrb : r.2 < best_score := hacc _ rfl
          refine Or.inr ⟨c :: pre, c', post, by rw [hdec]; rfl, h1, h2, ?_, ?_, hpost⟩
          · intro d hd
            rw [Option.some_inj] at hd
            subst hd
            exact hrb
          · intro d hd
            rcases List.mem_cons.mp hd with rfl | hd'
            · exact lt_of_lt_of_le hrb (not_lt.mp hcb)
            · exact hpre _ hd'

theorem find_optimal_slot_characterization (store : List Booking)
    (ws : List Workshop) (priority st : String) (now : Int) (s : OptimalSlot)
    (h : find_optimal_slot store ws priority st now = some s) :
    ∃ pre c post,
      ws.filterMap (slotCandidate store (max_delay_hours priority : Rat) st now) =
        pre ++ c :: post ∧
      s = mkOptimalSlot st c.1 c.2 ∧
      (∀ d ∈ pre, candScore now c < candScore now d) ∧
      (∀ d ∈ post, candScore now c ≤ candScore now d) := by
  simp only [find_optimal_slot] at h
  rw [go_eq_pickBest] at h
  rw [Option.map_eq_some'] at h
  obtain ⟨r, hr, hs⟩ := h
  rcases pickBest_spec _ _ _ _ _ hr with ⟨heq, -⟩ | ⟨pre, c, post, hdec, h1, h2, -, hpre, hpost⟩
  · exact absurd heq (by simp)
  · refine ⟨pre, c, post, hdec, by rw [← hs, h1], ?_, ?_⟩
    · intro d hd
      rw [← h2]
      exact hpre _ hd
    · intro d hd
      rw [← h2]
      exact not_lt.mp (hpost _ hd)

/-- C3: the per-priority delay bounds are critical 24h, high 72h, normal
168h, low 336h; every slot `_find_optimal_slot` returns has delay from the
decision instant at most the priority's bound; and when no eligible
workshop has a conflict-free slot within the bound, the result is the
no-availability outcome (`None`), never a slot beyond the bound. -/
theorem find_optimal_slot_respects_delay_bound :
    max_delay_hours "critical" = 24 ∧ max_delay_hours "high" = 72 ∧
    max_delay_hours "normal" = 168 ∧ max_delay_hours "low" = 336 ∧
    (∀ store ws priority st now s,
      find_optimal_slot store ws priority st now = some s →
      delayHours now s.slot_time ≤ (max_delay_hours priority : Rat)) ∧
    (∀ store ws priority st now,
      (∀ w ∈ ws, ∀ t,
        find_next_available_slot store w.workshop_id st now = some t →
        delayHours now t > (max_delay_hours priority : Rat)) →
      find_optimal_slot store ws priority st now = none) := by
  refine ⟨rfl, rfl, rfl, rfl, ?_, ?_⟩
  · intro store ws priority st now s h
    obtain ⟨pre, c, post, hdec, hs, -, -⟩ :=
      find_optimal_slot_characterization store ws priority st now s h
    have hc : c ∈ ws.filterMap
        (slotCandidate store (max_delay_hours priority : Rat) st now) := by
      rw [hdec]
      exact List.mem_append_right _ (List.mem_cons_self _ _)
    obtain ⟨w, -, hcand⟩ := List.mem_filterMap.mp hc
    obtain ⟨-, -, hbound⟩ := slotCandidate_some _ _ _ _ _ _ hcand
    rw [hs]
    exact not_lt.mp hbound
  · intro store ws priority st now hall
    have hnil : ws.filterMap
        (slotCandidate store (max_delay_hours priority : Rat) st now) = [] := by
      rw [List.filterMap_eq_nil_iff]
      intro w hw
      unfold slotCandidate
      cases hs : find_next_available_slot store w.workshop_id st now with
      | none => rfl
      | some t => exact if_pos (hall w hw t hs)
    simp only [find_optimal_slot]
    rw [go_eq_pickBest, hnil]
    rfl

/-- C3 witness: with no competing bookings, one eligible workshop and
`now = 0`, the scheduler returns the 08:00 slot (delay 8h ≤ 168h); and with
no workshops at all the result is the no-availability outcome. -/
theorem find_optimal_slot_respects_delay_bound_witness :
    delayHours 0 (mkOptimalSlot "corrective" wsA 480).slot_time ≤
      (max_delay_hours "normal" : Rat) ∧
    find_optimal_slot [] [] "critical" "corrective" 0 = none :=
  ⟨find_optimal_slot_respects_delay_bound.2.2.2.2.1 [] [wsA] "normal" "corrective" 0
      (mkOptimalSlot "corrective" wsA 480) (by decide),
   find_optimal_slot_respects_delay_bound.2.2.2.2.2 [] [] "critical" "corrective" 0
      (by intro w hw; exact absurd hw (List.not_mem_nil w))⟩

/-- C7 counterexample: two workshops with equal rating and identical
earliest slots (equal scores).  The selected workshop follows the
enumeration order of the workshops list — `"w2"` when listed first, `"w1"`
when listed first — so the tie is not broken by workshop id and the
selection is not independent of enumeration order. -/
theorem find_optimal_slot_order_dependent_cex :
    wsA.rating = wsB.rating ∧
    find_next_available_slot [] wsA.workshop_id "corrective" 0 =
      find_next_available_slot [] wsB.workshop_id "corrective" 0 ∧
    (find_optimal_slot [] [wsA, wsB] "normal" "corrective" 0).map
      OptimalSlot.workshop_id = some "w2" ∧
    (find_optimal_slot [] [wsB, wsA] "normal" "corrective" 0).map
      OptimalSlot.workshop_id = some "w1" := by decide

/-- C7 (amended): `_find_optimal_slot` selects, among all feasible
`(workshop, slot)` pairs, one minimizing `delay_hours - 10 * rating`; when
several pairs attain the minimal score, the one whose workshop comes first
in the enumerated workshops list wins (strictly smaller score than every
earlier candidate), so the tie-break is enumeration order, not workshop
id. -/
theorem find_optimal_slot_first_min (store : List Booking) (ws : List Workshop)
    (priority st : String) (now : Int) (s : OptimalSlot)
    (h : find_optimal_slot store ws priority st now = some s) :
    ∃ pre c post,
      ws.filterMap (slotCandidate store (max_delay_hours priority : Rat) st now) =
        pre ++ c :: post ∧
      s = mkOptimalSlot st c.1 c.2 ∧
      (∀ d ∈ pre, candScore now c < candScore now d) ∧
      (∀ d ∈ ws.filterMap (slotCandidate store (max_delay_hours priority : Rat) st now),
        candScore now c ≤ candScore now d) := by
  obtain ⟨pre, c, post, hdec, hs, hpre, hpost⟩ :=
    find_optimal_slot_characterization store ws priority st now s h
  refine ⟨pre, c, post, hdec, hs, hpre, ?_⟩
  intro d hd
  rw [hdec] at hd
  rcases List.mem_append.mp hd with hd' | hd'
  · exact le_of_lt (hpre _ hd')
  · rcases List.mem_cons.mp hd' with rfl | hd''
    · exact le_refl _
    · exact hpost _ hd''

/-- C7 witness: the amended selection property instantiated at a store-free
two-workshop configuration. -/
theorem find_optimal_slot_first_min_witness :
    ∃ pre c post,
      [wsA, wsB].filterMap (slotCandidate [] (max_delay_hours "normal" : Rat)
        "corrective" 0) = pre ++ c :: post ∧
      mkOptimalSlot "corrective" wsA 480 = mkOptimalSlot "corrective" c.1 c.2 ∧
      (∀ d ∈ pre, candScore 0 c < candScore 0 d) ∧
      (∀ d ∈ [wsA, wsB].filterMap (slotCandidate [] (max_delay_hours "normal" : Rat)
          "corrective" 0), candScore 0 c ≤ candScore 0 d) :=
  find_optimal_slot_first_min [] [wsA, wsB] "normal" "corrective" 0
    (mkOptimalSlot "corrective" wsA 480) (by decide)

/-- C2: the calendar non-overlap invariant is not preserved by
`_update_booking`.  Starting from two disjoint scheduled bookings on the
same workshop, updating the second booking's `booking_slot` onto the first
one succeeds without any conflict check and leaves the store with two
overlapping non-cancelled bookings. -/
theorem update_booking_breaks_non_overlap :
    overlapFree [bk1, bk2] = true ∧
    (update_booking [bk1, bk2] 2 { booking_slot := some 0 }).2 = none ∧
    overlapFree (update_booking [bk1, bk2] 2 { booking_slot := some 0 }).1 = false := by
  decide

/-! ## Coordinator claims -/

/-- C1 counterexample: a critical reading (severity 1.0 ≥ 0.6) whose
logging, analysis and scheduling all succeed, processed with a notifier
that always raises, yields `workflow_completed = false` — the single `try`
of `process_vehicle_telemetry` turns the notifier failure into the aborted
outcome instead of recording it as a stage result. -/
theorem pipeline_notifier_failure_cex :
    (detect_anomalies telemCritical (some 1) 0).overall_severity ≥ 6/10 ∧
    envNotifierDown.schedule_booking
        (mkBookingInput 1 (detect_anomalies telemCritical (some 1) 0)) =
      Except.ok { booking_id := some 7 } ∧
    (process_vehicle_telemetry envNotifierDown 1 telemCritical 0).workflow_completed =
      false := by
  exact ⟨by decide, rfl, by decide⟩

/-- C1 (amended): when a telemetry event with severity at least 0.6 has
successful logging, analysis and scheduling stages and the notifier's
booking-confirmation call raises, `process_vehicle_telemetry` returns the
aborted outcome: `workflow_completed = false` with the notifier's error
recorded, while the booking created by the scheduling stage is still
carried in the returned partial results rather than lost. -/
theorem pipeline_notifier_failure_keeps_booking
    (env : PipelineEnv) (vid : Nat) (telemetry : Telemetry) (now : Int)
    (lr : LogResult) (br : BookingResult) (e : String)
    (hlog : env.log_telemetry vid telemetry = Except.ok lr)
    (hhl : env.health_logging = Except.ok ())
    (hanom : (detect_anomalies telemetry (some vid) now).anomalies_detected > 0)
    (hsev : (detect_anomalies telemetry (some vid) now).overall_severity ≥ 6/10)
    (hbook : env.schedule_booking
      (mkBookingInput vid (detect_anomalies telemetry (some vid) now)) = Except.ok br)
    (hbid : br.booking_id.getD 0 ≠ 0)
    (hconf : env.send_booking_confirmation (br.booking_id.getD 0) = Except.error e) :
    (process_vehicle_telemetry env vid telemetry now).workflow_completed = false ∧
    (process_vehicle_telemetry env vid telemetry now).error = some e ∧
    (process_vehicle_telemetry env vid telemetry now).aborted_results =
      some [("logging", StepResult.logR lr),
            ("health_monitoring",
              StepResult.healthR (detect_anomalies telemetry (some vid) now)),
            ("booking", StepResult.bookingR br)] := by
  have hp : process_vehicle_telemetry env vid telemetry now =
      failOutcome vid e
        [("logging", StepResult.logR lr),
         ("health_monitoring",
           StepResult.healthR (detect_anomalies telemetry (some vid) now)),
         ("booking", StepResult.bookingR br)] now := by
    unfold process_vehicle_telemetry
    simp only [hlog, hhl, hbook, hconf, hanom, hsev, if_true,
      List.cons_append, List.nil_append]
    rw [if_pos hbid]
  rw [hp]
  exact ⟨rfl, rfl, rfl⟩

/-- C1 witness: the amended containment applied to the concrete
always-failing notifier environment and the critical reading. -/
theorem pipeline_notifier_failure_keeps_booking_witness :
    (process_vehicle_telemetry envNotifierDown 1 telemCritical 0).workflow_completed =
      false ∧
    (process_vehicle_telemetry envNotifierDown 1 telemCritical 0).error =
      some "notifier unavailable" ∧
    (process_vehicle_telemetry envNotifierDown 1 telemCritical 0).aborted_results =
      some [("logging", StepResult.logR ⟨1⟩),
            ("health_monitoring",
              StepResult.healthR (detect_anomalies telemCritical (some 1) 0)),
            ("booking", StepResult.bookingR { booking_id := some 7 })] :=
  pipeline_notifier_failure_keeps_booking envNotifierDown 1 telemCritical 0
    ⟨1⟩ { booking_id := some 7 } "notifier unavailable"
    rfl rfl (by decide) (by decide) rfl (by decide) rfl

/-- C6: for a processed event with at least one detected anomaly, the
coordinator derives priority `critical` when severity ≥ 0.8, `high` when
0.6 ≤ severity < 0.8 and `normal` otherwise, and the booking scheduler is
invoked (a `"booking"` stage is recorded) exactly when severity ≥ 0.6. -/
theorem coordinator_priority_and_booking_gate
    (env : PipelineEnv) (vid : Nat) (telemetry : Telemetry) (now : Int)
    (lr : LogResult) (br : BookingResult)
    (hlog : env.log_telemetry vid telemetry = Except.ok lr)
    (hhl : env.health_logging = Except.ok ())
    (hbook : ∀ bi, env.schedule_booking bi = Except.ok br)
    (hanom : (detect_anomalies telemetry (some vid) now).anomalies_detected > 0) :
    ((detect_anomalies telemetry (some vid) now).overall_severity ≥ 8/10 →
      (mkBookingInput vid (detect_anomalies telemetry (some vid) now)).priority =
        "critical") ∧
    ((detect_anomalies telemetry (some vid) now).overall_severity ≥ 6/10 →
      (detect_anomalies telemetry (some vid) now).overall_severity < 8/10 →
      (mkBookingInput vid (detect_anomalies telemetry (some vid) now)).priority =
        "high") ∧
    ((detect_anomalies telemetry (some vid) now).overall_severity < 6/10 →
      (mkBookingInput vid (detect_anomalies telemetry (some vid) now)).priority =
        "normal") ∧
    ("booking" ∈ recordedSteps (process_vehicle_telemetry env vid telemetry now) ↔
      (detect_anomalies telemetry (some vid) now).overall_severity ≥ 6/10) := by
  refine ⟨?_, ?_, ?_, ?_⟩
  · intro h8
    simp [mkBookingInput, derive_priority, h8]
  · intro h6 h8
    simp [mkBookingInput, derive_priority, if_neg (not_le.mpr h8), h6]
  · intro h6
    have h8 : (detect_anomalies telemetry (some vid) now).overall_severity < 8/10 :=
      lt_trans h6 (by norm_num)
    simp [mkBookingInput, derive_priority, if_neg (not_le.mpr h8),
      if_neg (not_le.mpr h6)]
  · by_cases hsev : (detect_anomalies telemetry (some vid) now).overall_severity ≥ 6/10
    · refine iff_of_true ?_ hsev
      unfold process_vehicle_telemetry
      simp only [hlog, hhl, hbook, hanom, hsev, if_true,
        List.cons_append, List.nil_append]
      by_cases hbid : br.booking_id.getD 0 ≠ 0
      · rw [if_pos hbid]
        cases hc : env.send_booking_confirmation (br.booking_id.getD 0) with
        | error e => simp [recordedSteps, failOutcome]
        | ok cr =>
          cases ha : env.send_alert
              (mkAlertInput vid telemetry (detect_anomalies telemetry (some vid) now)) with
          | error e => simp [recordedSteps, failOutcome]
          | ok ar => simp [recordedSteps, okOutcome]
      · rw [if_neg hbid]
        cases ha : env.send_alert
            (mkAlertInput vid telemetry (detect_anomalies telemetry (some vid) now)) with
        | error e => simp [recordedSteps, failOutcome]
        | ok ar => simp [recordedSteps, okOutcome]
    · refine iff_of_false ?_ hsev
      intro hmem
      unfold process_vehicle_telemetry at hmem
      simp only [hlog, hhl, hanom, if_true, if_neg hsev,
        List.cons_append, List.nil_append] at hmem
      simp [recordedSteps, okOutcome] at hmem

/-- C6 witness: the priority derivation and the booking gate at the
critical reading in an all-successful environment. -/
theorem coordinator_priority_and_booking_gate_witness :
    (mkBookingInput 1 (detect_anomalies telemCritical (some 1) 0)).priority =
      "critical" ∧
    "booking" ∈ recordedSteps (process_vehicle_telemetry envAllOk 1 telemCritical 0) := by
  have h := coordinator_priority_and_booking_gate envAllOk 1 telemCritical 0
    ⟨1⟩ { booking_id := some 7 } rfl rfl (fun _ => rfl) (by decide)
  exact ⟨h.1 (by decide), h.2.2.2.mpr (by decide)⟩

end Fleet
